import Mathlib

/-!
Verification of the `atakcots` CoT server orchestrator (`CotServer.py`).

The orchestrator is embedded shallowly:
* the filesystem operations used by `_make_empty_data_package_dir`
  (`os.path.isfile`, `os.path.exists`, `shutil.rmtree`, `os.makedirs`)
  act on a finite association list from paths to entries;
* the external collaborators (data-package builder `create_data_package`,
  message composer `compose_message`, transport `SocketConnection`) are
  parameters of the operations, as they are external interfaces of the
  repository;
* `push_cot` returns the post-state together with an instrumented event
  trace (builder invocations and send attempts) and an optional error,
  mirroring the order of mutations and the raise points of the Python code.
-/

/-- A filesystem entry: a regular file, or a directory with the names of its
contents. -/
inductive FsEntry where
  | file : FsEntry
  | dir (contents : List String) : FsEntry
deriving DecidableEq, Repr

/-- A filesystem: finite association from paths to entries. -/
abbrev FS := List (String × FsEntry)

/-- Lookup of a path in the filesystem. -/
def fsLookup (fs : FS) (p : String) : Option FsEntry :=
  match fs with
  | [] => none
  | (q, e) :: rest => if q = p then some e else fsLookup rest p

/-- `os.path.isfile`: the path exists and is a regular file. -/
def pathIsFile (fs : FS) (p : String) : Bool :=
  match fsLookup fs p with
  | some FsEntry.file => true
  | _ => false

/-- `os.path.exists`: the path exists (file or directory). -/
def pathExists (fs : FS) (p : String) : Bool :=
  (fsLookup fs p).isSome

/-- `shutil.rmtree`: recursively remove the tree rooted at the path. -/
def rmtree (fs : FS) (p : String) : FS :=
  List.filter (fun e => decide (e.1 ≠ p)) fs

/-- `os.makedirs` with `exist_ok=True`: create an empty directory at the
path, tolerating prior existence. -/
def makedirs (fs : FS) (p : String) : FS :=
  if pathExists fs p then fs else (p, FsEntry.dir []) :: fs

/-- The error message of `CotServer._make_empty_data_package_dir`. -/
def fileCollisionMsg (data_package_dir : String) : String :=
  "File already exists with path " ++ data_package_dir ++
    ", cannot create data package directory"

/-- `CotServer._make_empty_data_package_dir`: fail if a regular file sits at
the path; otherwise remove an existing tree and create a fresh directory.
Returns the resulting filesystem and an optional error. -/
def make_empty_data_package_dir (fs : FS) (data_package_dir : String) :
    FS × Option String :=
  if pathIsFile fs data_package_dir then
    (fs, some (fileCollisionMsg data_package_dir))
  else
    let fs1 := if pathExists fs data_package_dir then
        rmtree fs data_package_dir
      else fs
    (makedirs fs1 data_package_dir, none)

/-- The `http.server.HTTPServer` constructed by `CotServer.start`: bound to
(bind address, port) and rooted (via the handler) at the package directory. -/
structure HTTPServer where
  bind_address : String
  port : Nat
  directory : String
deriving DecidableEq, Repr

/-- The mutable state of a `CotServer` instance. `C` is the (opaque,
hashable) type of `CotConfig` values keying the cache. -/
structure CotServerState (C : Type) where
  address : String
  port : Nat
  bind_address : String
  data_package_dir : String
  timeout : Option Nat
  file_server : Option HTTPServer
  file_server_thread : Option HTTPServer
  cot_dp_paths : List (C × String)

instance (C : Type) [DecidableEq C] : DecidableEq (CotServerState C) := by
  intro a b
  cases a
  cases b
  simp only [CotServerState.mk.injEq]
  infer_instance

/-- The loopback warning text of `CotServer.__init__`. -/
def loopbackWarning : String :=
  "Loopback addresses are unreachable by most TAK clients. " ++
    "Instead use the assigned public or local network ip address"

/-- The fresh state built by a successful `CotServer.__init__`. -/
def initState (C : Type) (address : String) (port : Nat)
    (bind_address : String) (data_package_dir : String)
    (timeout : Option Nat) : CotServerState C :=
  { address := address
    port := port
    bind_address := bind_address
    data_package_dir := data_package_dir
    timeout := timeout
    file_server := none
    file_server_thread := none
    cot_dp_paths := [] }

/-- `CotServer.__init__`: set the configuration, bootstrap the package
directory (raising on a file collision, before anything else is touched),
clear the file server handle and the cache, and warn on an address in
`["localhost", "172.0.0.1"]`. Returns the filesystem after the call, the
warnings emitted, and either the constructed state or the raised error. -/
def CotServer_init (C : Type) (address : String) (port : Nat)
    (bind_address : String) (data_package_dir : String)
    (timeout : Option Nat) (fs : FS) :
    FS × List String × Except String (CotServerState C) :=
  match make_empty_data_package_dir fs data_package_dir with
  | (fs1, some e) => (fs1, [], Except.error e)
  | (fs1, none) =>
      let warns :=
        if address ∈ ["localhost", "172.0.0.1"] then [loopbackWarning] else []
      (fs1, warns,
        Except.ok (initState C address port bind_address data_package_dir
          timeout))

/-- `CotServer.start`: reconstruct the file server bound to
(bind address, port) rooted at the package directory, and start a worker
thread serving it. -/
def CotServer_start {C : Type} (s : CotServerState C) : CotServerState C :=
  let srv : HTTPServer :=
    { bind_address := s.bind_address
      port := s.port
      directory := s.data_package_dir }
  { s with file_server := some srv, file_server_thread := some srv }

/-- The error message of `CotServer.stop` when no server is running. -/
def stopErrMsg : String := "Cannot stop, file server not started"

/-- `CotServer.stop`: raise if the server or worker handle is empty,
otherwise shut the server down and clear both handles. Returns the
post-state and an optional error. -/
def CotServer_stop {C : Type} (s : CotServerState C) :
    CotServerState C × Option String :=
  if s.file_server.isNone || s.file_server_thread.isNone then
    (s, some stopErrMsg)
  else
    ({ s with file_server := none, file_server_thread := none }, none)

/-- Lookup of a `CotConfig` key in the package cache (`dict` lookup). -/
def lookupCache {C : Type} [DecidableEq C] (cache : List (C × String))
    (k : C) : Option String :=
  match cache with
  | [] => none
  | (q, v) :: rest => if k = q then some v else lookupCache rest k

/-- Observable events of one `push_cot` call: a data-package builder
invocation, or an outbound send attempt. -/
inductive PushEvent (C : Type) where
  | built (cot : C) (path : String) : PushEvent C
  | sent (addr : String) (port : Nat) (msg : String) : PushEvent C
deriving DecidableEq, Repr

/-- Result of a `push_cot` call: post-state (the mutations performed up to
the first raise point), the event trace, and the propagated error if any. -/
structure PushResult (C : Type) where
  state : CotServerState C
  events : List (PushEvent C)
  error : Option String

instance (C : Type) [DecidableEq C] : DecidableEq (PushResult C) := by
  intro a b
  cases a
  cases b
  simp only [PushResult.mk.injEq]
  infer_instance

/-- `CotServer.push_cot`: build the data package if the configuration is not
in the cache (storing the path), resolve the cached path, compose the
message with the orchestrator's own address and port, and send it to the
client over a scoped connection. `builder`, `composer` and `send` are the
external collaborators `create_data_package`, `compose_message` and
`SocketConnection.send`. -/
def push_cot {C : Type} [DecidableEq C]
    (builder : C → String → Except String String)
    (composer : C → String → Nat → String → String)
    (send : String → Nat → Option Nat → String → Except String Unit)
    (s : CotServerState C) (cot_config : C)
    (client_address : String) (client_port : Nat) : PushResult C :=
  let buildStep : Except String (CotServerState C × List (PushEvent C)) :=
    match lookupCache s.cot_dp_paths cot_config with
    | some _ => Except.ok (s, [])
    | none =>
        match builder cot_config s.data_package_dir with
        | Except.error e => Except.error e
        | Except.ok path =>
            Except.ok
              ({ s with cot_dp_paths := (cot_config, path) :: s.cot_dp_paths },
                [PushEvent.built cot_config path])
  match buildStep with
  | Except.error e => { state := s, events := [], error := some e }
  | Except.ok (s1, evs) =>
      match lookupCache s1.cot_dp_paths cot_config with
      | none => { state := s1, events := evs, error := some "KeyError" }
      | some path =>
          let message := composer cot_config s1.address s1.port path
          match send client_address client_port s1.timeout message with
          | Except.error e =>
              { state := s1
                events := evs ++ [PushEvent.sent client_address client_port message]
                error := some e }
          | Except.ok _ =>
              { state := s1
                events := evs ++ [PushEvent.sent client_address client_port message]
                error := none }

/-- The outcome of the scoped send: the propagated transport error, if any. -/
def sendOutcome : Except String Unit → Option String
  | Except.error e => some e
  | Except.ok _ => none

/-- The path `push_cot` resolves for a configuration: the cached path if
present, otherwise the path the builder would return. -/
def resolvedPath {C : Type} [DecidableEq C]
    (builder : C → String → Except String String)
    (s : CotServerState C) (cot_config : C) : Option String :=
  match lookupCache s.cot_dp_paths cot_config with
  | some p => some p
  | none => (builder cot_config s.data_package_dir).toOption

theorem fsLookup_rmtree (fs : FS) (p : String) :
    fsLookup (rmtree fs p) p = none := by
  induction fs with
  | nil => rfl
  | cons a t ih =>
    obtain ⟨q, e⟩ := a
    by_cases h : q = p
    · simpa [rmtree, List.filter, h] using ih
    · simpa [rmtree, List.filter, fsLookup, h] using ih

theorem lookupCache_cons_self {C : Type} [DecidableEq C]
    (rest : List (C × String)) (k : C) (v : String) :
    lookupCache ((k, v) :: rest) k = some v := by
  simp [lookupCache]

theorem push_cot_cached {C : Type} [DecidableEq C]
    (builder : C → String → Except String String)
    (composer : C → String → Nat → String → String)
    (send : String → Nat → Option Nat → String → Except String Unit)
    (s : CotServerState C) (cot_config : C) (path : String)
    (client_address : String) (client_port : Nat)
    (h : lookupCache s.cot_dp_paths cot_config = some path) :
    push_cot builder composer send s cot_config client_address client_port =
      { state := s
        events := [PushEvent.sent client_address client_port
          (composer cot_config s.address s.port path)]
        error := sendOutcome (send client_address client_port s.timeout
          (composer cot_config s.address s.port path)) } := by
  rcases hs : send client_address client_port s.timeout
      (composer cot_config s.address s.port path) with e | u <;>
    simp [push_cot, h, hs, sendOutcome]

theorem push_cot_fresh_ok {C : Type} [DecidableEq C]
    (builder : C → String → Except String String)
    (composer : C → String → Nat → String → String)
    (send : String → Nat → Option Nat → String → Except String Unit)
    (s : CotServerState C) (cot_config : C) (path : String)
    (client_address : String) (client_port : Nat)
    (h1 : lookupCache s.cot_dp_paths cot_config = none)
    (h2 : builder cot_config s.data_package_dir = Except.ok path) :
    push_cot builder composer send s cot_config client_address client_port =
      { state :=
          { s with cot_dp_paths := (cot_config, path) :: s.cot_dp_paths }
        events := [PushEvent.built cot_config path,
          PushEvent.sent client_address client_port
            (composer cot_config s.address s.port path)]
        error := sendOutcome (send client_address client_port s.timeout
          (composer cot_config s.address s.port path)) } := by
  rcases hs : send client_address client_port s.timeout
      (composer cot_config s.address s.port path) with e | u <;>
    simp [push_cot, h1, h2, hs, sendOutcome, lookupCache]

theorem push_cot_fresh_err {C : Type} [DecidableEq C]
    (builder : C → String → Except String String)
    (composer : C → String → Nat → String → String)
    (send : String → Nat → Option Nat → String → Except String Unit)
    (s : CotServerState C) (cot_config : C) (e : String)
    (client_address : String) (client_port : Nat)
    (h1 : lookupCache s.cot_dp_paths cot_config = none)
    (h2 : builder cot_config s.data_package_dir = Except.error e) :
    push_cot builder composer send s cot_config client_address client_port =
      { state := s, events := [], error := some e } := by
  simp [push_cot, h1, h2]

/-- C2: the claim says every loopback client-facing address (such as
"127.0.0.1" or "localhost") triggers the non-fatal construction warning and
non-loopback addresses do not. The code's membership test reads
`["localhost", "172.0.0.1"]` — a typo for `127.0.0.1` — so constructing
with the loopback address "127.0.0.1" emits no warning, while the
non-loopback address "172.0.0.1" does; "localhost" behaves as claimed. -/
theorem loopback_warning_typo :
    (CotServer_init Nat "127.0.0.1" 8000 "0.0.0.0" "/tmp/cot_server"
      none []).2.1 = [] ∧
    (CotServer_init Nat "172.0.0.1" 8000 "0.0.0.0" "/tmp/cot_server"
      none []).2.1 = [loopbackWarning] ∧
    (CotServer_init Nat "localhost" 8000 "0.0.0.0" "/tmp/cot_server"
      none []).2.1 = [loopbackWarning] := by
  refine ⟨?_, ?_, ?_⟩ <;> decide

/-- C5: calling `stop` when no file server is running (server or worker
handle empty) fails with the invalid-state error and leaves the state
unchanged. -/
theorem stop_without_running_server_fails {C : Type}
    (s : CotServerState C)
    (h : s.file_server = none ∨ s.file_server_thread = none) :
    CotServer_stop s = (s, some stopErrMsg) := by
  rcases h with h | h <;> simp [CotServer_stop, h]

/-- Witness for C5: `stop` on a freshly constructed (never started) state
fails with the invalid-state error and the state stays "not started". -/
theorem stop_without_running_server_fails_witness :
    (initState Nat "192.168.0.2" 8000 "0.0.0.0" "/tmp/cot_server"
      none).file_server = none ∧
    CotServer_stop (initState Nat "192.168.0.2" 8000 "0.0.0.0"
      "/tmp/cot_server" none) =
      (initState Nat "192.168.0.2" 8000 "0.0.0.0" "/tmp/cot_server" none,
        some stopErrMsg) :=
  ⟨rfl, stop_without_running_server_fails _ (Or.inl rfl)⟩

/-- C6: if a regular file already exists at the package-directory path,
construction fails with the configuration error, emits no warning, creates
a fresh state for nothing, and leaves the filesystem untouched. -/
theorem init_fails_on_file_collision (C : Type) (address : String)
    (port : Nat) (bind_address : String) (data_package_dir : String)
    (timeout : Option Nat) (fs : FS)
    (h : pathIsFile fs data_package_dir = true) :
    CotServer_init C address port bind_address data_package_dir timeout fs =
      (fs, [], Except.error (fileCollisionMsg data_package_dir)) := by
  simp [CotServer_init, make_empty_data_package_dir, h]

/-- Witness for C6: constructing over an existing regular file at
"/tmp/cot_server" fails and changes nothing. -/
theorem init_fails_on_file_collision_witness :
    pathIsFile [("/tmp/cot_server", FsEntry.file)] "/tmp/cot_server" =
      true ∧
    CotServer_init Nat "192.168.0.2" 8000 "0.0.0.0" "/tmp/cot_server" none
      [("/tmp/cot_server", FsEntry.file)] =
      ([("/tmp/cot_server", FsEntry.file)], [],
        Except.error (fileCollisionMsg "/tmp/cot_server")) :=
  ⟨rfl, init_fails_on_file_collision Nat "192.168.0.2" 8000 "0.0.0.0"
    "/tmp/cot_server" none [("/tmp/cot_server", FsEntry.file)] rfl⟩

/-- C7: whenever no regular file collides with the package-directory path
(in particular when a possibly non-empty directory already sits there),
construction succeeds and afterwards the package directory exists and is
empty: the prior tree is recursively deleted and a fresh directory
created. -/
theorem init_leaves_empty_package_dir (C : Type) (address : String)
    (port : Nat) (bind_address : String) (data_package_dir : String)
    (timeout : Option Nat) (fs : FS)
    (h : pathIsFile fs data_package_dir = false) :
    (CotServer_init C address port bind_address data_package_dir timeout
      fs).2.2 =
      Except.ok (initState C address port bind_address data_package_dir
        timeout) ∧
    fsLookup (CotServer_init C address port bind_address data_package_dir
      timeout fs).1 data_package_dir = some (FsEntry.dir []) := by
  have hmk : make_empty_data_package_dir fs data_package_dir =
      (makedirs (if pathExists fs data_package_dir then
        rmtree fs data_package_dir else fs) data_package_dir, none) := by
    simp [make_empty_data_package_dir, h]
  have hnone : fsLookup (if pathExists fs data_package_dir then
      rmtree fs data_package_dir else fs) data_package_dir = none := by
    cases he : pathExists fs data_package_dir with
    | true => simp [fsLookup_rmtree]
    | false =>
      simp only [Bool.false_eq_true, if_false]
      cases hv : fsLookup fs data_package_dir with
      | none => rfl
      | some v =>
        rw [pathExists, hv] at he
        simp at he
  have hex : pathExists (if pathExists fs data_package_dir then
      rmtree fs data_package_dir else fs) data_package_dir = false := by
    rw [pathExists, hnone]
    rfl
  constructor
  · simp [CotServer_init, hmk]
  · simp only [CotServer_init, hmk]
    rw [makedirs, hex]
    simp [fsLookup]

/-- Witness for C7: constructing over a non-empty directory at
"/tmp/cot_server" succeeds and leaves an empty directory there. -/
theorem init_leaves_empty_package_dir_witness :
    pathIsFile [("/tmp/cot_server", FsEntry.dir ["stale.zip"])]
      "/tmp/cot_server" = false ∧
    ((CotServer_init Nat "192.168.0.2" 8000 "0.0.0.0" "/tmp/cot_server"
      none [("/tmp/cot_server", FsEntry.dir ["stale.zip"])]).2.2 =
      Except.ok (initState Nat "192.168.0.2" 8000 "0.0.0.0"
        "/tmp/cot_server" none) ∧
    fsLookup (CotServer_init Nat "192.168.0.2" 8000 "0.0.0.0"
      "/tmp/cot_server" none
      [("/tmp/cot_server", FsEntry.dir ["stale.zip"])]).1
      "/tmp/cot_server" = some (FsEntry.dir [])) :=
  ⟨rfl, init_leaves_empty_package_dir Nat "192.168.0.2" 8000 "0.0.0.0"
    "/tmp/cot_server" none
    [("/tmp/cot_server", FsEntry.dir ["stale.zip"])] rfl⟩

/-- C9: the file-server handle is empty after construction; `start`
populates the server and worker handles with a server freshly rebuilt from
the current configuration, regardless of any previous handle contents (no
dangling state); a stop on a populated handle succeeds and clears both
handles; and `stop` after `start` succeeds, after which `start` works
again exactly as the first time. -/
theorem file_server_handle_lifecycle (C : Type) (address : String)
    (port : Nat) (bind_address : String) (data_package_dir : String)
    (timeout : Option Nat) (s : CotServerState C)
    (h h' : Option HTTPServer) (srv srv' : HTTPServer) :
    (initState C address port bind_address data_package_dir
      timeout).file_server = none ∧
    (initState C address port bind_address data_package_dir
      timeout).file_server_thread = none ∧
    (CotServer_start s).file_server =
      some ⟨s.bind_address, s.port, s.data_package_dir⟩ ∧
    (CotServer_start s).file_server_thread =
      some ⟨s.bind_address, s.port, s.data_package_dir⟩ ∧
    CotServer_start
      { s with file_server := h, file_server_thread := h' } =
      CotServer_start s ∧
    CotServer_stop
      { s with file_server := some srv, file_server_thread := some srv' } =
      ({ s with file_server := none, file_server_thread := none }, none) ∧
    CotServer_stop (CotServer_start s) =
      ({ s with file_server := none, file_server_thread := none }, none) ∧
    CotServer_start ((CotServer_stop (CotServer_start s)).1) =
      CotServer_start s :=
  ⟨rfl, rfl, rfl, rfl, rfl, rfl, rfl, rfl⟩

/-- C1: for a configuration not yet cached whose build succeeds, the first
push invokes the builder exactly once and stores the returned path; a
second push with an equal configuration invokes the builder zero times,
reuses the stored path for the same composed message, and leaves the state
unchanged — whatever the transport does on either call. -/
theorem push_builds_at_most_once {C : Type} [DecidableEq C]
    (builder : C → String → Except String String)
    (composer : C → String → Nat → String → String)
    (send : String → Nat → Option Nat → String → Except String Unit)
    (s : CotServerState C) (cot_config : C) (path : String)
    (addr1 addr2 : String) (port1 port2 : Nat)
    (h1 : lookupCache s.cot_dp_paths cot_config = none)
    (h2 : builder cot_config s.data_package_dir = Except.ok path) :
    (push_cot builder composer send s cot_config addr1 port1).events =
      [PushEvent.built cot_config path,
        PushEvent.sent addr1 port1
          (composer cot_config s.address s.port path)] ∧
    (push_cot builder composer send s cot_config addr1
      port1).state.cot_dp_paths = (cot_config, path) :: s.cot_dp_paths ∧
    (push_cot builder composer send
      (push_cot builder composer send s cot_config addr1 port1).state
      cot_config addr2 port2).events =
      [PushEvent.sent addr2 port2
        (composer cot_config s.address s.port path)] ∧
    (push_cot builder composer send
      (push_cot builder composer send s cot_config addr1 port1).state
      cot_config addr2 port2).state =
      (push_cot builder composer send s cot_config addr1 port1).state := by
  rw [push_cot_fresh_ok builder composer send s cot_config path addr1 port1
    h1 h2]
  rw [push_cot_cached builder composer send _ cot_config path addr2 port2
    (lookupCache_cons_self s.cot_dp_paths cot_config path)]
  exact ⟨rfl, rfl, rfl, rfl⟩

/-- C3: if the configuration is not cached and the builder fails, the push
propagates the builder's error, performs no mutation (the state, and in
particular the cache, is unchanged and holds no entry for the
configuration), and a later push with an equal configuration and a working
builder invokes the builder again. -/
theorem push_build_error_leaves_no_entry {C : Type} [DecidableEq C]
    (builder builder2 : C → String → Except String String)
    (composer : C → String → Nat → String → String)
    (send : String → Nat → Option Nat → String → Except String Unit)
    (s : CotServerState C) (cot_config : C) (e path : String)
    (addr1 addr2 : String) (port1 port2 : Nat)
    (h1 : lookupCache s.cot_dp_paths cot_config = none)
    (h2 : builder cot_config s.data_package_dir = Except.error e)
    (h3 : builder2 cot_config s.data_package_dir = Except.ok path) :
    push_cot builder composer send s cot_config addr1 port1 =
      { state := s, events := [], error := some e } ∧
    lookupCache (push_cot builder composer send s cot_config addr1
      port1).state.cot_dp_paths cot_config = none ∧
    (push_cot builder2 composer send
      (push_cot builder composer send s cot_config addr1 port1).state
      cot_config addr2 port2).events =
      [PushEvent.built cot_config path,
        PushEvent.sent addr2 port2
          (composer cot_config s.address s.port path)] := by
  rw [push_cot_fresh_err builder composer send s cot_config e addr1 port1
    h1 h2]
  rw [push_cot_fresh_ok builder2 composer send s cot_config path addr2
    port2 h1 h3]
  exact ⟨rfl, h1, rfl⟩

/-- C4: if the build step succeeded this call but the outbound send fails,
the transport error propagates, the cache entry created this call is
retained, and exactly one send attempt was made (no retry). -/
theorem push_send_error_keeps_cache_entry {C : Type} [DecidableEq C]
    (builder : C → String → Except String String)
    (composer : C → String → Nat → String → String)
    (send : String → Nat → Option Nat → String → Except String Unit)
    (s : CotServerState C) (cot_config : C) (path e : String)
    (client_address : String) (client_port : Nat)
    (h1 : lookupCache s.cot_dp_paths cot_config = none)
    (h2 : builder cot_config s.data_package_dir = Except.ok path)
    (h3 : send client_address client_port s.timeout
      (composer cot_config s.address s.port path) = Except.error e) :
    (push_cot builder composer send s cot_config client_address
      client_port).error = some e ∧
    lookupCache (push_cot builder composer send s cot_config client_address
      client_port).state.cot_dp_paths cot_config = some path ∧
    (push_cot builder composer send s cot_config client_address
      client_port).events =
      [PushEvent.built cot_config path,
        PushEvent.sent client_address client_port
          (composer cot_config s.address s.port path)] := by
  rw [push_cot_fresh_ok builder composer send s cot_config path
    client_address client_port h1 h2]
  refine ⟨?_, ?_, rfl⟩
  · rw [show (send client_address client_port s.timeout
      (composer cot_config s.address s.port path)) = Except.error e from h3]
    rfl
  · exact lookupCache_cons_self s.cot_dp_paths cot_config path

/-- C8: every push whose package path resolves (cached, or freshly built)
sends a message composed from the orchestrator's own client-facing address
and port together with the resolved path — the push call's destination
address and port only address the send, never the composer. -/
theorem push_composes_with_own_address {C : Type} [DecidableEq C]
    (builder : C → String → Except String String)
    (composer : C → String → Nat → String → String)
    (send : String → Nat → Option Nat → String → Except String Unit)
    (s : CotServerState C) (cot_config : C) (path : String)
    (client_address : String) (client_port : Nat)
    (h : resolvedPath builder s cot_config = some path) :
    (push_cot builder composer send s cot_config client_address
      client_port).events.getLast? =
      some (PushEvent.sent client_address client_port
        (composer cot_config s.address s.port path)) := by
  rw [resolvedPath] at h
  cases hl : lookupCache s.cot_dp_paths cot_config with
  | some q =>
    rw [hl] at h
    have hq : q = path := Option.some.inj h
    rw [push_cot_cached builder composer send s cot_config q client_address
      client_port hl, hq]
    rfl
  | none =>
    rw [hl] at h
    cases hb : builder cot_config s.data_package_dir with
    | error e => rw [hb] at h; cases h
    | ok q =>
      rw [hb] at h
      have hq : q = path := Option.some.inj h
      rw [push_cot_fresh_ok builder composer send s cot_config q
        client_address client_port hl hb, hq]
      rfl

/-- C10: `push_cot` neither reads nor writes the file-server handle: on a
state with the handle fields replaced by anything, it produces the same
events and error and the same state up to those untouched handle fields —
so a push behaves identically whether or not `start` was ever called. -/
theorem push_cot_ignores_file_server {C : Type} [DecidableEq C]
    (builder : C → String → Except String String)
    (composer : C → String → Nat → String → String)
    (send : String → Nat → Option Nat → String → Except String Unit)
    (s : CotServerState C) (cot_config : C)
    (client_address : String) (client_port : Nat)
    (h h' : Option HTTPServer) :
    push_cot builder composer send
      { s with file_server := h, file_server_thread := h' } cot_config
      client_address client_port =
      { state :=
          { (push_cot builder composer send s cot_config client_address
              client_port).state with
            file_server := h, file_server_thread := h' }
        events := (push_cot builder composer send s cot_config
          client_address client_port).events
        error := (push_cot builder composer send s cot_config
          client_address client_port).error } := by
  cases hl : lookupCache s.cot_dp_paths cot_config with
  | some path =>
    rw [push_cot_cached builder composer send s cot_config path
      client_address client_port hl]
    rw [push_cot_cached builder composer send
      { s with file_server := h, file_server_thread := h' } cot_config path
      client_address client_port hl]
  | none =>
    cases hb : builder cot_config s.data_package_dir with
    | error e =>
      rw [push_cot_fresh_err builder composer send s cot_config e
        client_address client_port hl hb]
      rw [push_cot_fresh_err builder composer send
        { s with file_server := h, file_server_thread := h' } cot_config e
        client_address client_port hl hb]
    | ok path =>
      rw [push_cot_fresh_ok builder composer send s cot_config path
        client_address client_port hl hb]
      rw [push_cot_fresh_ok builder composer send
        { s with file_server := h, file_server_thread := h' } cot_config
        path client_address client_port hl hb]

/-- A concrete data-package builder used to exercise the push theorems. -/
def wBuilder : Nat → String → Except String String :=
  fun _ d => Except.ok (d ++ "/pkg.zip")

/-- A concrete always-failing data-package builder. -/
def wBuilderFail : Nat → String → Except String String :=
  fun _ _ => Except.error "disk full"

/-- A concrete message composer used to exercise the push theorems. -/
def wComposer : Nat → String → Nat → String → String :=
  fun _ a p dp => "http://" ++ a ++ ":" ++ toString p ++ "/" ++ dp

/-- A concrete always-succeeding transport. -/
def wSendOk : String → Nat → Option Nat → String → Except String Unit :=
  fun _ _ _ _ => Except.ok ()

/-- A concrete always-failing transport. -/
def wSendFail : String → Nat → Option Nat → String → Except String Unit :=
  fun _ _ _ _ => Except.error "connection timed out"

/-- A concrete freshly constructed server state. -/
def wState : CotServerState Nat :=
  initState Nat "192.168.0.2" 8000 "0.0.0.0" "/tmp/cot_server" none

/-- Witness for C1: two pushes of configuration `7` on a fresh state build
once, cache the path, and the second push reuses it. -/
theorem push_builds_at_most_once_witness :
    lookupCache wState.cot_dp_paths 7 = none ∧
    wBuilder 7 wState.data_package_dir =
      Except.ok "/tmp/cot_server/pkg.zip" ∧
    ((push_cot wBuilder wComposer wSendOk wState 7 "10.0.0.5" 4242).events =
      [PushEvent.built 7 "/tmp/cot_server/pkg.zip",
        PushEvent.sent "10.0.0.5" 4242
          (wComposer 7 wState.address wState.port
            "/tmp/cot_server/pkg.zip")] ∧
    (push_cot wBuilder wComposer wSendOk wState 7 "10.0.0.5"
      4242).state.cot_dp_paths =
      (7, "/tmp/cot_server/pkg.zip") :: wState.cot_dp_paths ∧
    (push_cot wBuilder wComposer wSendOk
      (push_cot wBuilder wComposer wSendOk wState 7 "10.0.0.5" 4242).state
      7 "10.0.0.6" 4242).events =
      [PushEvent.sent "10.0.0.6" 4242
        (wComposer 7 wState.address wState.port
          "/tmp/cot_server/pkg.zip")] ∧
    (push_cot wBuilder wComposer wSendOk
      (push_cot wBuilder wComposer wSendOk wState 7 "10.0.0.5" 4242).state
      7 "10.0.0.6" 4242).state =
      (push_cot wBuilder wComposer wSendOk wState 7 "10.0.0.5"
        4242).state) :=
  ⟨rfl, rfl, push_builds_at_most_once wBuilder wComposer wSendOk wState 7
    "/tmp/cot_server/pkg.zip" "10.0.0.5" "10.0.0.6" 4242 4242 rfl rfl⟩

/-- Witness for C3: a failing build on a fresh state propagates the error,
caches nothing, and a later push with a working builder builds again. -/
theorem push_build_error_leaves_no_entry_witness :
    lookupCache wState.cot_dp_paths 7 = none ∧
    wBuilderFail 7 wState.data_package_dir = Except.error "disk full" ∧
    wBuilder 7 wState.data_package_dir =
      Except.ok "/tmp/cot_server/pkg.zip" ∧
    (push_cot wBuilderFail wComposer wSendOk wState 7 "10.0.0.5" 4242 =
      { state := wState, events := [], error := some "disk full" } ∧
    lookupCache (push_cot wBuilderFail wComposer wSendOk wState 7 "10.0.0.5"
      4242).state.cot_dp_paths 7 = none ∧
    (push_cot wBuilder wComposer wSendOk
      (push_cot wBuilderFail wComposer wSendOk wState 7 "10.0.0.5"
        4242).state 7 "10.0.0.6" 4242).events =
      [PushEvent.built 7 "/tmp/cot_server/pkg.zip",
        PushEvent.sent "10.0.0.6" 4242
          (wComposer 7 wState.address wState.port
            "/tmp/cot_server/pkg.zip")]) :=
  ⟨rfl, rfl, rfl, push_build_error_leaves_no_entry wBuilderFail wBuilder
    wComposer wSendOk wState 7 "disk full" "/tmp/cot_server/pkg.zip"
    "10.0.0.5" "10.0.0.6" 4242 4242 rfl rfl rfl⟩

/-- Witness for C4: a successful build followed by a failing send
propagates the transport error while the fresh cache entry survives. -/
theorem push_send_error_keeps_cache_entry_witness :
    lookupCache wState.cot_dp_paths 7 = none ∧
    wBuilder 7 wState.data_package_dir =
      Except.ok "/tmp/cot_server/pkg.zip" ∧
    wSendFail "10.0.0.5" 4242 wState.timeout
      (wComposer 7 wState.address wState.port "/tmp/cot_server/pkg.zip") =
      Except.error "connection timed out" ∧
    ((push_cot wBuilder wComposer wSendFail wState 7 "10.0.0.5"
      4242).error = some "connection timed out" ∧
    lookupCache (push_cot wBuilder wComposer wSendFail wState 7 "10.0.0.5"
      4242).state.cot_dp_paths 7 = some "/tmp/cot_server/pkg.zip" ∧
    (push_cot wBuilder wComposer wSendFail wState 7 "10.0.0.5"
      4242).events =
      [PushEvent.built 7 "/tmp/cot_server/pkg.zip",
        PushEvent.sent "10.0.0.5" 4242
          (wComposer 7 wState.address wState.port
            "/tmp/cot_server/pkg.zip")]) :=
  ⟨rfl, rfl, rfl, push_send_error_keeps_cache_entry wBuilder wComposer
    wSendFail wState 7 "/tmp/cot_server/pkg.zip" "connection timed out"
    "10.0.0.5" 4242 rfl rfl rfl⟩

/-- Witness for C8: a push on a fresh state sends a message composed from
the orchestrator's own address and port, not the destination's. -/
theorem push_composes_with_own_address_witness :
    resolvedPath wBuilder wState 7 = some "/tmp/cot_server/pkg.zip" ∧
    (push_cot wBuilder wComposer wSendOk wState 7 "10.0.0.5"
      4242).events.getLast? =
      some (PushEvent.sent "10.0.0.5" 4242
        (wComposer 7 wState.address wState.port
          "/tmp/cot_server/pkg.zip")) :=
  ⟨rfl, push_composes_with_own_address wBuilder wComposer wSendOk wState 7
    "/tmp/cot_server/pkg.zip" "10.0.0.5" 4242 rfl⟩
